import Mathlib

/-!
# Verification of the scoreboard controller (src/html/scoreboard.js)

Shallow embedding of the browser-resident scoreboard state controller.
The DOM-resident scoreboard element is modelled as the `Scoreboard`
structure; the XML serialize/parse round trip is structurally faithful
(spec section 6 requires serialize-then-parse to yield a structurally
equivalent tree), so the snapshot stacks hold `Scoreboard` values
directly.  The module-level globals (`undoable_scoreboards`,
`redoable_scoreboards`, `current_position`, the local-storage cache
entry) together with the scoreboard element form the `AppState`
structure, and every event handler becomes a state transformer.
Purely presentational effects (css classes on the undo/redo buttons,
color-picker widget values, event-listener re-attachment) carry no
scoreboard state and are not part of the model.
-/

/-- The placement descriptor: the four css offsets kept in the global
`current_position` and written into the style of the positioned
elements; `none` models the JavaScript `null` entries that are skipped
when the style string is built. -/
structure Position where
  top : Option Int
  bottom : Option Int
  left : Option Int
  right : Option Int
deriving DecidableEq

/-- The scoreboard element: every visible field of the serialized
snapshot (scoreboard.js keeps these as DOM text/class/style content).
`home_serving` / `away_serving` model membership of the css class
`serving` on the two serve indicators, and `pos` models the style
offsets applied to the scoreboard element by `set_position`. -/
structure Scoreboard where
  home_score : Int
  away_score : Int
  home_set : Int
  away_set : Int
  home_serving : Bool
  away_serving : Bool
  home_team : String
  away_team : String
  home_color : String
  away_color : String
  pos : Position
deriving DecidableEq

/-- The full controller state: the live scoreboard, the two snapshot
stacks (head of the list = top of the JavaScript array stack), the
global `current_position` record, and the local-storage cache entry
for the active identity (`none` = no entry). -/
structure AppState where
  board : Scoreboard
  undoable : List Scoreboard
  redoable : List Scoreboard
  current_position : Position
  localCache : Option Scoreboard
deriving DecidableEq

/-- The four counters a score event can target
(`evt.currentTarget.counter` as wired by `add_scoreboard_listeners`). -/
inductive Counter where
  | home_score
  | away_score
  | home_set
  | away_set
deriving DecidableEq

/-- The direction of a score event (`evt.currentTarget.action`). -/
inductive ScoreAction where
  | plus
  | minus
deriving DecidableEq

/-- The two teams, for `set_color`. -/
inductive Team where
  | home
  | away
deriving DecidableEq

/-- `counter.endsWith('set')` on the four wired counter ids. -/
def Counter.isSet : Counter → Bool
  | .home_set => true
  | .away_set => true
  | .home_score => false
  | .away_score => false

/-- Read a counter (`parseInt(document.getElementById(counter).textContent)`). -/
def getCounter (b : Scoreboard) : Counter → Int
  | .home_score => b.home_score
  | .away_score => b.away_score
  | .home_set => b.home_set
  | .away_set => b.away_set

/-- Write a counter (`document.getElementById(counter).textContent = score`). -/
def setCounter (b : Scoreboard) : Counter → Int → Scoreboard
  | .home_score, v => { b with home_score := v }
  | .away_score, v => { b with away_score := v }
  | .home_set, v => { b with home_set := v }
  | .away_set, v => { b with away_set := v }

/-- `save_state(clear)` (scoreboard.js lines 16-22): optionally truncate
the undo stack, push the current serialized scoreboard, and empty the
redo stack.  The css-class toggles on the undo/redo buttons are
presentation only. -/
def save_state (clear : Bool) (s : AppState) : AppState :=
  { s with
    undoable := s.board :: (if clear then [] else s.undoable)
    redoable := [] }

/-- `upload()` (lines 51-62): store the serialized scoreboard under the
local-storage key and fire a best-effort POST; only the cache write is
state the controller can later observe. -/
def upload (s : AppState) : AppState :=
  { s with localCache := some s.board }

/-- `get_position()` (lines 138-151): copy the computed style offsets of
the (possibly just restored) scoreboard element into the global
`current_position` record. -/
def get_position (s : AppState) : AppState :=
  { s with current_position := s.board.pos }

/-- `undo()` (lines 23-36): no-op on an empty undo stack; otherwise pop
the last snapshot, push the current serialized scoreboard onto the redo
stack, install the popped snapshot as the live scoreboard, refresh the
derived position record, and persist. -/
def undo (s : AppState) : AppState :=
  match s.undoable with
  | [] => s
  | last :: rest =>
      upload (get_position
        { s with
          board := last
          undoable := rest
          redoable := s.board :: s.redoable })

/-- `redo()` (lines 37-50): symmetric to `undo`, popping from the redo
stack and pushing the current scoreboard onto the undo stack. -/
def redo (s : AppState) : AppState :=
  match s.redoable with
  | [] => s
  | last :: rest =>
      upload (get_position
        { s with
          board := last
          redoable := rest
          undoable := s.board :: s.undoable })

/-- `score(evt)` (lines 63-89).  The event carries the target counter
and direction as wired in `add_scoreboard_listeners`; the serve branch
tests `evt.currentTarget.id`, which by that wiring is exactly
`counter_action`.  `confirmAns` is the answer the user gives to the
`confirm('Start next set at 0-0?')` dialog; the dialog is shown only
when a set counter is incremented, and only the zeroing of the two
score counters is gated on it — the set increment itself and the
snapshot push have already happened unconditionally. -/
def score (c : Counter) (a : ScoreAction) (confirmAns : Bool) (s : AppState) : AppState :=
  let s1 := save_state false s
  let v0 := getCounter s1.board c
  let v1 :=
    match a with
    | .plus => v0 + 1
    | .minus => v0 - 1
  let v2 := if v1 < 0 then 0 else v1
  let b1 :=
    if c.isSet = true ∧ a = ScoreAction.plus then
      (if confirmAns then { s1.board with home_score := 0, away_score := 0 } else s1.board)
    else s1.board
  let b2 :=
    if c = Counter.home_score ∧ a = ScoreAction.plus then
      { b1 with home_serving := true, away_serving := false }
    else if c = Counter.away_score ∧ a = ScoreAction.plus then
      { b1 with home_serving := false, away_serving := true }
    else b1
  upload { s1 with board := setCounter b2 c v2 }

/-- `toggle_serve(evt)` (lines 90-101): snapshot, then pass the serve to
away when home is serving, and to home in every other case. -/
def toggle_serve (s : AppState) : AppState :=
  let s1 := save_state false s
  let b :=
    if s1.board.home_serving then
      { s1.board with home_serving := false, away_serving := true }
    else
      { s1.board with home_serving := true, away_serving := false }
  upload { s1 with board := b }

/-- `set_color(evt)` (lines 115-120): snapshot, commit the picked color
for the team, persist. -/
def set_color (t : Team) (v : String) (s : AppState) : AppState :=
  let s1 := save_state false s
  let b :=
    match t with
    | .home => { s1.board with home_color := v }
    | .away => { s1.board with away_color := v }
  upload { s1 with board := b }

/-- `save_team(evt)` (lines 121-123): the focus handler that begins a
team-name edit; it only snapshots. -/
def save_team (s : AppState) : AppState :=
  save_state false s

/-- `update_team(evt)` (lines 124-126): the blur handler ending a
team-name edit commits the edited name (the browser already placed it
in the contenteditable element) and persists. -/
def update_team (t : Team) (name : String) (s : AppState) : AppState :=
  let b :=
    match t with
    | .home => { s.board with home_team := name }
    | .away => { s.board with away_team := name }
  upload { s with board := b }

/-- `reset(evt)` (lines 127-137): gated on
`confirm("Would you like to reset the game?")`.  On confirm:
`save_state(true)` (truncate the undo stack, then push the pre-reset
snapshot), zero all four counters, persist, and remove the
local-storage entry.  On decline: nothing at all. -/
def reset (confirmAns : Bool) (s : AppState) : AppState :=
  if confirmAns then
    let s1 := save_state true s
    let b := { s1.board with home_set := 0, away_set := 0, home_score := 0, away_score := 0 }
    let s2 := upload { s1 with board := b }
    { s2 with localCache := none }
  else s

/-- `set_position(evt)` (lines 186-218): gated on
`confirm("Are you sure you want to move the scoreboard?")`.  On
confirm: `save_state(true)`, compute the pointer position as a fraction
of the bounding box of the container, anchor right when the x fraction
exceeds one half (else left), anchor bottom when the y fraction exceeds
one half (else top), apply the resulting style to the positioned
elements including the scoreboard itself, and persist.  Coordinates are
modelled as rationals; the comparison against the midpoint is exact. -/
def set_position (confirmAns : Bool) (clientX clientY rectX rectY rectW rectH : ℚ)
    (s : AppState) : AppState :=
  if confirmAns then
    let s1 := save_state true s
    let x_perc := (clientX - rectX) / rectW
    let y_perc := (clientY - rectY) / rectH
    let p : Position :=
      { left := if x_perc > 1/2 then none else some 0
        right := if x_perc > 1/2 then some 0 else none
        top := if y_perc > 1/2 then none else some 0
        bottom := if y_perc > 1/2 then some 0 else none }
    upload { s1 with current_position := p, board := { s1.board with pos := p } }
  else s

/-- The outcome of the startup fetch of the remote snapshot, as
`load_initial_scoreboard` distinguishes it: a thrown network error, or
a response with its `ok` flag and its body.  The body is `some b` when
the text is non-empty and parses to a document containing the
scoreboard element, and `none` for an empty or unusable body. -/
inductive RemoteResult where
  | netError
  | response (ok : Bool) (body : Option Scoreboard)
deriving DecidableEq

/-- The snapshot the remote path adopts, if any: only an ok response
with a usable body yields one. -/
def remoteYields : RemoteResult → Option Scoreboard
  | .response true (some b) => some b
  | _ => none

/-- `load_initial_scoreboard()` (lines 153-185): adopt the remote
snapshot and prime the cache with it when the fetch succeeds end to
end; otherwise fall back to the cached snapshot when one exists;
otherwise leave the built-in default markup (the current board)
untouched.  No merging of the two sources ever happens. -/
def load_initial_scoreboard (remote : RemoteResult) (s : AppState) : AppState :=
  match remote with
  | .response true (some remoteBoard) =>
      get_position { s with board := remoteBoard, localCache := some remoteBoard }
  | _ =>
      match s.localCache with
      | some stored => get_position { s with board := stored }
      | none => s

/-- One user-level mutating action other than undo/redo, as the claims
enumerate them; `reset` and `set_position` appear in their confirmed
form (the declined form performs no mutation at all). -/
inductive MutAction where
  | score (c : Counter) (a : ScoreAction) (confirmAns : Bool)
  | toggle_serve
  | set_color (t : Team) (v : String)
  | save_team
  | reset
  | set_position (clientX clientY rectX rectY rectW rectH : ℚ)

/-- Apply a mutating action to the controller state. -/
def applyMut : MutAction → AppState → AppState
  | .score c a conf, s => score c a conf s
  | .toggle_serve, s => toggle_serve s
  | .set_color t v, s => set_color t v s
  | .save_team, s => save_team s
  | .reset, s => reset true s
  | .set_position cx cy rx ry rw rh, s => set_position true cx cy rx ry rw rh s

/-- A sequence of score events applied in order. -/
def applyScores (l : List (Counter × ScoreAction × Bool)) (s : AppState) : AppState :=
  l.foldl (fun st p => score p.1 p.2.1 p.2.2 st) s

/-- All four counters are non-negative. -/
def nonnegBoard (b : Scoreboard) : Prop :=
  0 ≤ b.home_score ∧ 0 ≤ b.away_score ∧ 0 ≤ b.home_set ∧ 0 ≤ b.away_set

/-!
## The color conversion `rgba2hex` (scoreboard.js line 1)

The arrow function matches the rendered color against
`^rgba?\((\d+),\s*(\d+),\s*(\d+)(?:,\s*(\d+\.{0,1}\d*))?\)$` and maps
the four capture groups through
`toString(16).padStart(2,'0').replace('NaN','')`, rounding the alpha
group times 255 first.  A 3-channel `rgb(r, g, b)` input leaves the
fourth group undefined, so its pipeline runs on `NaN`, whose rendering
`"NaN"` survives the pad (length 3) and is then erased by the replace.
The embedding takes the capture groups as input: the three integer
channels as naturals and the optional alpha as a rational (the decimal
literal the regex captures, read exactly). -/

/-- `Number.prototype.toString(16)` on a natural number: lowercase
hexadecimal digits, at least one digit. -/
def jsToString16 (n : Nat) : List Char :=
  Nat.toDigits 16 n

/-- `String.prototype.padStart(2, '0')`. -/
def padStart2 (l : List Char) : List Char :=
  if l.length < 2 then List.replicate (2 - l.length) '0' ++ l else l

/-- `String.prototype.replace('NaN', '')`: remove the first occurrence
of `NaN`, if any. -/
def removeFirstNaN : List Char → List Char
  | 'N' :: 'a' :: 'N' :: rest => rest
  | c :: rest => c :: removeFirstNaN rest
  | [] => []

/-- `Math.round` on a non-negative rational (rounds half away from
zero, which for non-negative arguments is floor of x + 1/2), taken
into the naturals. -/
def jsRound (q : ℚ) : Nat :=
  (⌊q + 1/2⌋).toNat

/-- The mapped pipeline on one of the three integer channel captures. -/
def jsChannelEntry (n : Nat) : List Char :=
  removeFirstNaN (padStart2 (jsToString16 n))

/-- The mapped pipeline on the alpha capture: `none` is the undefined
fourth group of a 3-channel input, whose `parseFloat` is `NaN`. -/
def jsAlphaEntry : Option ℚ → List Char
  | none => removeFirstNaN (padStart2 ['N', 'a', 'N'])
  | some q => removeFirstNaN (padStart2 (jsToString16 (jsRound (q * 255))))

/-- `rgba2hex`: the hash sign followed by the joined mapped captures. -/
def rgba2hex (r g b : Nat) (a : Option ℚ) : String :=
  "#" ++ String.mk (jsChannelEntry r ++ jsChannelEntry g ++ jsChannelEntry b ++ jsAlphaEntry a)

/-- Lowercase hexadecimal digit. -/
def isHexDigitChar (c : Char) : Bool :=
  c.isDigit || ('a' ≤ c && c ≤ 'f')

/-!
## Concrete states used by witnesses and counterexamples
-/

/-- The default placement (`current_position` initializer, line 4). -/
def defaultPos : Position :=
  { top := some 0, bottom := none, left := none, right := some 0 }

/-- A concrete scoreboard mid-match. -/
def exBoard : Scoreboard :=
  { home_score := 5
    away_score := 3
    home_set := 2
    away_set := 1
    home_serving := true
    away_serving := false
    home_team := "A"
    away_team := "B"
    home_color := "ff0000"
    away_color := "0000ff"
    pos := defaultPos }

/-- A second concrete scoreboard (an older snapshot). -/
def exBoardOld : Scoreboard :=
  { exBoard with home_score := 4, home_serving := false, away_serving := true }

/-- A zeroed scoreboard with nobody serving. -/
def zeroBoard : Scoreboard :=
  { exBoard with
    home_score := 0
    away_score := 0
    home_set := 0
    away_set := 0
    home_serving := false
    away_serving := false }

/-- A concrete controller state with history on both stacks. -/
def exState : AppState :=
  { board := exBoard
    undoable := [exBoardOld, zeroBoard]
    redoable := [exBoardOld]
    current_position := defaultPos
    localCache := some exBoard }

/-- A concrete controller state with empty stacks. -/
def freshState : AppState :=
  { board := zeroBoard
    undoable := []
    redoable := []
    current_position := defaultPos
    localCache := none }

/-!
## Helper lemmas
-/

/-- Every mutating action pushes the pre-action serialized scoreboard
onto the undo stack (either on top of the old stack or as its only
entry, for the two checkpointing actions). -/
lemma applyMut_undoable_cons (a : MutAction) (s : AppState) :
    ∃ rest, (applyMut a s).undoable = s.board :: rest := by
  cases a with
  | score c act conf => exact ⟨s.undoable, by simp [applyMut, score, save_state, upload]⟩
  | toggle_serve => exact ⟨s.undoable, by simp [applyMut, toggle_serve, save_state, upload]⟩
  | set_color t v => exact ⟨s.undoable, by simp [applyMut, set_color, save_state, upload]⟩
  | save_team => exact ⟨s.undoable, by simp [applyMut, save_team, save_state, upload]⟩
  | reset => exact ⟨[], by simp [applyMut, reset, save_state, upload]⟩
  | set_position cx cy rx ry rw rh =>
      exact ⟨[], by simp [applyMut, set_position, save_state, upload]⟩

/-- A single score event keeps all four counters non-negative: the
written value is clamped, the set-confirm branch writes zeros, and the
other counters are untouched. -/
lemma score_preserves_nonneg (c : Counter) (a : ScoreAction) (conf : Bool) (s : AppState)
    (h : nonnegBoard s.board) : nonnegBoard (score c a conf s).board := by
  obtain ⟨h1, h2, h3, h4⟩ := h
  cases c <;> cases a <;> cases conf <;>
    simp [score, save_state, upload, getCounter, setCounter, Counter.isSet, nonnegBoard] <;>
    split_ifs <;> omega

set_option maxRecDepth 10000 in
/-- The mapped pipeline on an integer capture in the byte range yields
exactly two lowercase hexadecimal digits. -/
lemma jsChannelEntry_spec : ∀ n < 256,
    (jsChannelEntry n).length = 2 ∧ (jsChannelEntry n).all isHexDigitChar = true := by
  decide

/-- A rendered alpha value is at most 1, so its rounded byte is at
most 255. -/
lemma alpha_byte_le (a : ℚ) (h1 : a ≤ 1) : jsRound (a * 255) ≤ 255 := by
  have hle : a * 255 + 1 / 2 < (255 : ℤ) + 1 := by
    push_cast
    linarith
  have : ⌊a * 255 + 1 / 2⌋ ≤ 255 := Int.floor_le_iff.mpr (by exact_mod_cast hle)
  simpa [jsRound] using Int.toNat_le.mpr this

/-!
## Claim theorems
-/

/-- C1: after any mutating action, `undo` restores the exact serialized
scoreboard that preceded the action, and from any state with a
non-empty undo stack, `undo` immediately followed by `redo` is the
identity on the serialized scoreboard state. -/
theorem undo_redo_round_trip (s t : AppState) (a : MutAction) (h : t.undoable ≠ []) :
    (undo (applyMut a s)).board = s.board ∧ (redo (undo t)).board = t.board := by
  constructor
  · obtain ⟨rest, hc⟩ := applyMut_undoable_cons a s
    simp [undo, hc, upload, get_position]
  · obtain ⟨pre, rest, ht⟩ : ∃ pre rest, t.undoable = pre :: rest := by
      cases hu : t.undoable with
      | nil => exact absurd hu h
      | cons x xs => exact ⟨x, xs, rfl⟩
    simp [undo, redo, ht, upload, get_position]

/-- Witness for C1 at a concrete state with history. -/
theorem undo_redo_round_trip_witness :
    (undo (applyMut MutAction.toggle_serve freshState)).board = freshState.board ∧
    (redo (undo exState)).board = exState.board :=
  undo_redo_round_trip freshState exState MutAction.toggle_serve (by simp [exState])

/-- C2: every mutating action other than undo/redo leaves the redo
stack empty, whatever it held before. -/
theorem mutating_action_clears_redoable (a : MutAction) (s : AppState) :
    (applyMut a s).redoable = [] := by
  cases a <;>
    simp [applyMut, score, toggle_serve, set_color, save_team, reset, set_position,
      save_state, upload]

/-- C3 counterexample: a confirmed reset does not leave the undo stack
empty — `save_state(true)` truncates the stack and then pushes the
pre-reset snapshot, so the stack holds exactly that one entry. -/
theorem reset_claim_counterexample :
    (reset true exState).undoable ≠ [] := by
  simp [reset, save_state, upload]

/-- C3 amended: a confirmed `reset()` zeroes all four counters, removes
the local cache entry for the active identity, and leaves the undo
stack holding exactly one snapshot — the pre-reset state, which is
therefore recoverable by a single `undo`. -/
theorem reset_amended (s : AppState) :
    (reset true s).board.home_score = 0 ∧ (reset true s).board.away_score = 0 ∧
    (reset true s).board.home_set = 0 ∧ (reset true s).board.away_set = 0 ∧
    (reset true s).undoable = [s.board] ∧ (reset true s).localCache = none := by
  simp [reset, save_state, upload]

/-- C4 counterexample: declining the set-advance confirmation does not
abort the operation — the set counter is still incremented and a
snapshot is still pushed onto the undo stack. -/
theorem declined_set_advance_counterexample :
    (score Counter.home_set ScoreAction.plus false freshState).board ≠ freshState.board ∧
    (score Counter.home_set ScoreAction.plus false freshState).undoable ≠ [] := by
  decide

/-- C4 amended: declining the confirmation of `reset()` or
`set_position()` aborts with the state completely unchanged and no
snapshot pushed; declining the set-advance confirmation only skips
zeroing the two score counters — the set increment itself still
happens (clamped like every counter write) and the pre-action snapshot
is still pushed. -/
theorem declined_confirmation_amended (s : AppState) (cx cy rx ry rw rh : ℚ) :
    reset false s = s ∧
    set_position false cx cy rx ry rw rh s = s ∧
    ∀ c : Counter, c.isSet = true →
      (score c ScoreAction.plus false s).board
        = setCounter s.board c
            (if getCounter s.board c + 1 < 0 then 0 else getCounter s.board c + 1) ∧
      (score c ScoreAction.plus false s).undoable = s.board :: s.undoable := by
  refine ⟨by simp [reset], by simp [set_position], ?_⟩
  intro c hc
  cases c <;> simp_all [score, save_state, upload, Counter.isSet, getCounter, setCounter]

/-- Witness for C4 amended at a concrete state and counter. -/
theorem declined_confirmation_amended_witness :
    reset false exState = exState ∧
    set_position false 1 1 0 0 10 10 exState = exState ∧
    (score Counter.home_set ScoreAction.plus false exState).board
      = setCounter exState.board Counter.home_set
          (if getCounter exState.board Counter.home_set + 1 < 0 then 0
           else getCounter exState.board Counter.home_set + 1) ∧
    (score Counter.home_set ScoreAction.plus false exState).undoable
      = exState.board :: exState.undoable := by
  obtain ⟨h1, h2, h3⟩ := declined_confirmation_amended exState 1 1 0 0 10 10
  obtain ⟨h4, h5⟩ := h3 Counter.home_set rfl
  exact ⟨h1, h2, h4, h5⟩

/-- C5: starting from non-negative counters, every sequence of score
events keeps all four counters non-negative, and a decrement applied to
a counter standing at 0 leaves it at 0. -/
theorem counters_never_negative (s : AppState) (l : List (Counter × ScoreAction × Bool))
    (h : nonnegBoard s.board) :
    nonnegBoard (applyScores l s).board ∧
    ∀ (c : Counter) (conf : Bool), getCounter s.board c = 0 →
      getCounter (score c ScoreAction.minus conf s).board c = 0 := by
  constructor
  · induction l generalizing s with
    | nil => exact h
    | cons p rest ih =>
        simpa [applyScores] using ih (score p.1 p.2.1 p.2.2 s)
          (score_preserves_nonneg p.1 p.2.1 p.2.2 s h)
  · intro c conf h0
    cases c <;>
      simp_all [score, save_state, upload, getCounter, setCounter, Counter.isSet]

/-- Witness for C5: three decrements of the home score from the zeroed
state keep every counter at 0 and, in particular, never below 0. -/
theorem counters_never_negative_witness :
    nonnegBoard freshState.board ∧
    nonnegBoard (applyScores
      [(Counter.home_score, ScoreAction.minus, true),
       (Counter.home_score, ScoreAction.minus, true),
       (Counter.home_score, ScoreAction.minus, true)] freshState).board ∧
    getCounter (score Counter.home_score ScoreAction.minus true freshState).board
      Counter.home_score = 0 ∧
    getCounter (applyScores
      [(Counter.home_score, ScoreAction.minus, true),
       (Counter.home_score, ScoreAction.minus, true),
       (Counter.home_score, ScoreAction.minus, true)] freshState).board
      Counter.home_score = 0 := by
  have h : nonnegBoard freshState.board := by
    refine ⟨?_, ?_, ?_, ?_⟩ <;> decide
  obtain ⟨h1, h2⟩ := counters_never_negative freshState
    [(Counter.home_score, ScoreAction.minus, true),
     (Counter.home_score, ScoreAction.minus, true),
     (Counter.home_score, ScoreAction.minus, true)] h
  exact ⟨h, h1, h2 Counter.home_score true (by decide), by decide⟩

/-- C6: incrementing a score counter makes the incremented side the
serving side and un-marks the other, so exactly one side is marked
serving after any score-increment event. -/
theorem score_increment_sets_serving (s : AppState) (conf : Bool) :
    ((score Counter.home_score ScoreAction.plus conf s).board.home_serving = true ∧
     (score Counter.home_score ScoreAction.plus conf s).board.away_serving = false) ∧
    ((score Counter.away_score ScoreAction.plus conf s).board.away_serving = true ∧
     (score Counter.away_score ScoreAction.plus conf s).board.home_serving = false) := by
  simp [score, save_state, upload, getCounter, setCounter, Counter.isSet]

/-- C7 counterexample: a confirmed `set_position` does not leave the
undo stack empty — `save_state(true)` truncates and then pushes the
pre-move snapshot. -/
theorem set_position_claim_counterexample :
    (set_position true 1 1 0 0 10 10 exState).undoable ≠ [] := by
  simp [set_position, save_state, upload]

/-- C7 amended: a confirmed `set_position` anchors to the right exactly
when the x pointer fraction exceeds one half (else to the left) and to
the bottom exactly when the y fraction exceeds one half (else to the
top) — so exactly one flag of each axis pair is set, and a pointer in
the top-left quadrant yields the left-anchored, top-anchored corner —
and it leaves the undo stack holding exactly the pre-move snapshot. -/
theorem set_position_amended (s : AppState) (cx cy rx ry rw rh : ℚ) :
    (set_position true cx cy rx ry rw rh s).undoable = [s.board] ∧
    (set_position true cx cy rx ry rw rh s).current_position.left
      = (if (cx - rx) / rw > 1/2 then none else some 0) ∧
    (set_position true cx cy rx ry rw rh s).current_position.right
      = (if (cx - rx) / rw > 1/2 then some 0 else none) ∧
    (set_position true cx cy rx ry rw rh s).current_position.top
      = (if (cy - ry) / rh > 1/2 then none else some 0) ∧
    (set_position true cx cy rx ry rw rh s).current_position.bottom
      = (if (cy - ry) / rh > 1/2 then some 0 else none) ∧
    (set_position true cx cy rx ry rw rh s).board.pos
      = (set_position true cx cy rx ry rw rh s).current_position := by
  simp [set_position, save_state, upload]

/-- C8: when the remote fetch yields nothing (network error, non-ok
response, or empty/unusable body), the adopted initial state is exactly
the cached snapshot when one exists, and otherwise the built-in default
markup stands entirely unchanged; in general the adopted scoreboard is
the remote one when the fetch succeeds, else the cached one, else the
default — a pure fallback chain with no merging. -/
theorem load_initial_fallback_chain (r : RemoteResult) (s : AppState) (b : Scoreboard)
    (h : remoteYields r = none) :
    (s.localCache = some b → (load_initial_scoreboard r s).board = b) ∧
    (s.localCache = none → load_initial_scoreboard r s = s) ∧
    ∀ (r2 : RemoteResult) (s2 : AppState),
      (load_initial_scoreboard r2 s2).board
        = (match remoteYields r2 with
           | some rb => rb
           | none => match s2.localCache with
                     | some cb => cb
                     | none => s2.board) := by
  refine ⟨?_, ?_, ?_⟩
  · intro hc
    cases r with
    | netError => simp [load_initial_scoreboard, hc, get_position]
    | response ok body =>
        cases ok <;> cases body <;>
          simp_all [load_initial_scoreboard, remoteYields, get_position]
  · intro hc
    cases r with
    | netError => simp [load_initial_scoreboard, hc]
    | response ok body =>
        cases ok <;> cases body <;>
          simp_all [load_initial_scoreboard, remoteYields]
  · intro r2 s2
    cases r2 with
    | netError =>
        cases hc : s2.localCache <;>
          simp [load_initial_scoreboard, remoteYields, hc, get_position]
    | response ok body =>
        cases ok <;> cases body <;> cases hc : s2.localCache <;>
          simp [load_initial_scoreboard, remoteYields, hc, get_position]

/-- Witness for C8: a network error with a cached snapshot adopts the
cached snapshot exactly. -/
theorem load_initial_fallback_chain_witness :
    (load_initial_scoreboard RemoteResult.netError exState).board = exBoard :=
  (load_initial_fallback_chain RemoteResult.netError exState exBoard rfl).1 rfl

/-- C10: `toggle_serve` inverts the home serving flag and hands the
serve to away exactly when home was serving — so from any state where
home is not serving (including the initial state where neither side
serves) home becomes the serving side, and afterwards exactly one side
is marked serving. -/
theorem toggle_serve_exactly_one (s : AppState) :
    (toggle_serve s).board.home_serving = !s.board.home_serving ∧
    (toggle_serve s).board.away_serving = s.board.home_serving ∧
    (toggle_serve s).board.home_serving = !(toggle_serve s).board.away_serving := by
  cases h : s.board.home_serving <;> simp [toggle_serve, save_state, upload, h]

/-- C9: on byte-range channels, `rgba2hex` of a 3-channel input is a
hash sign followed by exactly 6 hexadecimal digits (the undefined
alpha capture renders as `NaN` and is erased, leaving no trailing
bytes or placeholder), and of a 4-channel input with alpha in [0, 1]
is a hash sign followed by exactly 8 hexadecimal digits, the last two
encoding the alpha rounded onto the 0-255 byte range. -/
theorem rgba2hex_digit_counts (r g b : Nat) (a : ℚ)
    (hr : r ≤ 255) (hg : g ≤ 255) (hb : b ≤ 255) (ha0 : 0 ≤ a) (ha1 : a ≤ 1) :
    (rgba2hex r g b none).length = 7 ∧
    (∀ c ∈ (rgba2hex r g b none).toList.tail, isHexDigitChar c = true) ∧
    (rgba2hex r g b (some a)).length = 9 ∧
    (∀ c ∈ (rgba2hex r g b (some a)).toList.tail, isHexDigitChar c = true) ∧
    ((jsRound (a * 255) : ℤ) = ⌊a * 255 + 1/2⌋ ∧ jsRound (a * 255) ≤ 255) := by
  have hch : ∀ n, n ≤ 255 →
      (jsChannelEntry n).length = 2 ∧ ∀ c ∈ jsChannelEntry n, isHexDigitChar c = true := by
    intro n hn
    obtain ⟨hl, hall⟩ := jsChannelEntry_spec n (by omega)
    exact ⟨hl, fun c hc => List.all_eq_true.mp hall c hc⟩
  obtain ⟨hrl, hra⟩ := hch r hr
  obtain ⟨hgl, hga⟩ := hch g hg
  obtain ⟨hbl, hba⟩ := hch b hb
  have hbyte : jsRound (a * 255) ≤ 255 := alpha_byte_le a ha1
  have halpha : jsAlphaEntry (some a) = jsChannelEntry (jsRound (a * 255)) := rfl
  obtain ⟨hal, haa⟩ := hch (jsRound (a * 255)) hbyte
  have hnone : jsAlphaEntry none = [] := by decide
  have hfloor : (jsRound (a * 255) : ℤ) = ⌊a * 255 + 1/2⌋ := by
    have : (0 : ℤ) ≤ ⌊a * 255 + 1/2⌋ := by
      apply Int.floor_nonneg.mpr
      positivity
    simpa [jsRound] using Int.toNat_of_nonneg this
  refine ⟨?_, ?_, ?_, ?_, hfloor, hbyte⟩
  · simp [rgba2hex, String.length_append, hnone, hrl, hgl, hbl]
    decide
  · intro c hc
    simp [rgba2hex, String.toList, hnone] at hc
    rcases hc with h | h | h
    · exact hra c h
    · exact hga c h
    · exact hba c h
  · simp [rgba2hex, String.length_append, halpha, hrl, hgl, hbl, hal]
    decide
  · intro c hc
    simp [rgba2hex, String.toList, halpha] at hc
    rcases hc with h | h | h | h
    · exact hra c h
    · exact hga c h
    · exact hba c h
    · exact haa c h

/-- Witness for C9 with full-intensity channels and alpha one half. -/
theorem rgba2hex_digit_counts_witness :
    (rgba2hex 255 255 255 none).length = 7 ∧
    (∀ c ∈ (rgba2hex 255 255 255 none).toList.tail, isHexDigitChar c = true) ∧
    (rgba2hex 255 255 255 (some (1/2))).length = 9 ∧
    (∀ c ∈ (rgba2hex 255 255 255 (some (1/2))).toList.tail, isHexDigitChar c = true) ∧
    ((jsRound ((1/2 : ℚ) * 255) : ℤ) = ⌊(1/2 : ℚ) * 255 + 1/2⌋ ∧
     jsRound ((1/2 : ℚ) * 255) ≤ 255) :=
  rgba2hex_digit_counts 255 255 255 (1/2) (by norm_num) (by norm_num) (by norm_num)
    (by norm_num) (by norm_num)
